import Mathlib

/-!
# Shallow embedding of the crowdfunding backend

The repository is a minimal single-campaign crowdfunding backend:
`src/schemas.py` declares the Pydantic record types `Campaign` and
`Contribution`, and `src/main.py` declares the FastAPI route handlers
(`create_campaign`, `list_campaigns`, `add_contribution`,
`list_contributions`, `get_summary`, `test_database`).

Python floats are modelled as exact rationals (`ℚ`), timestamps as integers,
and the Mongo document store (`database.py`, which is not part of the
repository's files - only its callers are) as a state record holding the two
collections, following the spec's description of the store adapter.
Request handlers are state-passing functions `Store → result × Store`;
a raised `HTTPException` or a Pydantic validation failure is an
`Except.error` value.
-/

namespace Crowdfund

/-- Python's `round(x, 2)` tie-breaking on the integer part: round half to
even (banker's rounding), applied here to the exact rational value. -/
def roundHalfEven (q : ℚ) : ℤ :=
  if q - ⌊q⌋ < 1/2 then ⌊q⌋
  else if q - ⌊q⌋ > 1/2 then ⌊q⌋ + 1
  else if ⌊q⌋ % 2 = 0 then ⌊q⌋ else ⌊q⌋ + 1

/-- Python's `round(x, 2)`: round to two decimal places. -/
def round2 (q : ℚ) : ℚ := (roundHalfEven (q * 100) : ℚ) / 100

/-- Modelled from the spec: `email` must be "text matching email-address
syntax".  The `EmailStr` validator comes from an external library, not from
this repository's files; it is modelled as: exactly one at sign separating a
non-empty local part from a non-empty domain part that contains a dot. -/
def validEmail (e : String) : Bool :=
  let cs := e.data
  let lp := cs.takeWhile (fun c => c ≠ '@')
  match cs.dropWhile (fun c => c ≠ '@') with
  | '@' :: dom =>
      !lp.isEmpty && !dom.isEmpty && dom.all (fun c => c ≠ '@') && dom.contains '.'
  | _ => false

/-! ## Schema layer (src/schemas.py)

A validated `Campaign` / `Contribution` mirrors the Pydantic model fields;
a `RawCampaign` / `RawContribution` is the JSON request body before
validation, every field optional (`none` = absent from the body). -/

/-- `Campaign` model of src/schemas.py: `title`, `description`,
`goal_amount : float` (`gt=0`), `max_supporters : Optional[int]`
(default `100`, `gt=0`), `deadline : Optional[datetime]`. -/
structure Campaign where
  title : String
  description : String
  goal_amount : ℚ
  max_supporters : Option ℤ
  deadline : Option ℤ
deriving DecidableEq, Repr

/-- `Contribution` model of src/schemas.py: `name`, `email : EmailStr`,
`amount : float` (`gt=0`), `message : Optional[str]`,
`is_public : bool` (default `True`). -/
structure Contribution where
  name : String
  email : String
  amount : ℚ
  message : Option String
  is_public : Bool
deriving DecidableEq, Repr

/-- A campaign request body before validation; `none` means the field is
absent from the JSON body. -/
structure RawCampaign where
  title : Option String
  description : Option String
  goal_amount : Option ℚ
  max_supporters : Option ℤ
  deadline : Option ℤ
deriving DecidableEq, Repr

/-- A contribution request body before validation; `none` means the field is
absent from the JSON body. -/
structure RawContribution where
  name : Option String
  email : Option String
  amount : Option ℚ
  message : Option String
  is_public : Option Bool
deriving DecidableEq, Repr

/-- Pydantic validation of a `Campaign` body (src/schemas.py, class
`Campaign`): `title`, `description`, `goal_amount` are required
(`Field(...)`); `goal_amount` must satisfy `gt=0`; `max_supporters`
defaults to `100` and must satisfy `gt=0` when given.  A `str` field with
no further constraint accepts any string, the empty string included. -/
def validate_campaign (r : RawCampaign) : Except String Campaign :=
  match r.title, r.description, r.goal_amount with
  | some t, some d, some g =>
      if 0 < g then
        match r.max_supporters with
        | some m =>
            if 0 < m then Except.ok ⟨t, d, g, some m, r.deadline⟩
            else Except.error "max_supporters: ensure this value is greater than 0"
        | none => Except.ok ⟨t, d, g, some 100, r.deadline⟩
      else Except.error "goal_amount: ensure this value is greater than 0"
  | _, _, _ => Except.error "field required"

/-- Pydantic validation of a `Contribution` body (src/schemas.py, class
`Contribution`): `name`, `email`, `amount` are required; `email` must
match email syntax; `amount` must satisfy `gt=0`; `is_public` defaults to
`True`. -/
def validate_contribution (r : RawContribution) : Except String Contribution :=
  match r.name, r.email, r.amount with
  | some n, some e, some a =>
      if validEmail e then
        if 0 < a then Except.ok ⟨n, e, a, r.message, r.is_public.getD true⟩
        else Except.error "amount: ensure this value is greater than 0"
      else Except.error "email: value is not a valid email address"
  | _, _, _ => Except.error "field required"

/-! ## Document store (modelled from the spec)

`database.py` is not among the repository's files; `main.py` imports
`create_document`, `get_documents` and `db` from it.  The spec describes it
as a generic collection-scoped store: `create(collection, record) -> id`
inserts a record and returns its newly assigned identifier, and
`list(collection, filter)` with the empty filter (the only filter the
handlers pass) returns all records of the collection as loosely-typed
documents.  `created_at` is "timestamp, set at creation" and `id` "opaque
unique identifier assigned by the store". -/

/-- A raw campaign document as the store returns it.  Fields other than the
ones the store itself assigns are `Option`s: a loosely-typed document may
lack them (`doc.get(key, default)` in the handlers). -/
structure CampaignDoc where
  docId : String
  title : String
  description : String
  goal_amount : Option ℚ
  max_supporters : Option ℤ
  deadline : Option ℤ
  created_at : ℤ
deriving DecidableEq, Repr

/-- A raw contribution document as the store returns it. -/
structure ContributionDoc where
  docId : String
  name : String
  email : String
  amount : Option ℚ
  message : Option String
  is_public : Option Bool
  created_at : ℤ
deriving DecidableEq, Repr

/-- Modelled from the spec: the document store's state - the two collections
the handlers use, a counter for the store-assigned opaque ids, and a logical
clock for the store-assigned `created_at` timestamps. -/
structure Store where
  campaign : List CampaignDoc
  contribution : List ContributionDoc
  nextId : ℕ
  now : ℤ
deriving DecidableEq, Repr

/-- Modelled from the spec: `get_documents("campaign", {})` - the empty
filter "returns all records in the collection". -/
def get_documents_campaign (s : Store) : List CampaignDoc := s.campaign

/-- Modelled from the spec: `get_documents("contribution", {})`. -/
def get_documents_contribution (s : Store) : List ContributionDoc := s.contribution

/-- Modelled from the spec: `create_document("campaign", payload)` - inserts
the record, assigns an opaque id and the creation timestamp, returns the id. -/
def create_document_campaign (s : Store) (p : Campaign) : String × Store :=
  let doc : CampaignDoc :=
    { docId := toString s.nextId, title := p.title, description := p.description
      goal_amount := some p.goal_amount, max_supporters := p.max_supporters
      deadline := p.deadline, created_at := s.now }
  (toString s.nextId,
    { s with campaign := s.campaign ++ [doc], nextId := s.nextId + 1, now := s.now + 1 })

/-- Modelled from the spec: `create_document("contribution", payload)`. -/
def create_document_contribution (s : Store) (p : Contribution) : String × Store :=
  let doc : ContributionDoc :=
    { docId := toString s.nextId, name := p.name, email := p.email
      amount := some p.amount, message := p.message
      is_public := some p.is_public, created_at := s.now }
  (toString s.nextId,
    { s with contribution := s.contribution ++ [doc], nextId := s.nextId + 1, now := s.now + 1 })

/-! ## HTTP API layer (src/main.py) -/

/-- A failed request: `validation d` is FastAPI's 422 response when the body
fails Pydantic validation before the handler runs; `http status d` is a
`raise HTTPException(status_code, detail)` inside the handler. -/
inductive ApiError where
  | validation (detail : String)
  | http (status : ℕ) (detail : String)
deriving DecidableEq, Repr

/-- `POST /api/campaigns` handler (src/main.py, `create_campaign`): reads all
documents of the `campaign` collection, raises 400 when any exists, otherwise
inserts the payload and returns the new id. -/
def create_campaign (s : Store) (payload : Campaign) : Except ApiError String × Store :=
  let existing := get_documents_campaign s
  if existing.isEmpty then
    let r := create_document_campaign s payload
    (Except.ok r.1, r.2)
  else
    (Except.error (ApiError.http 400 "A campaign already exists"), s)

/-- `POST /api/contributions` handler (src/main.py, `add_contribution`):
raises 400 when `amount <= 0`, otherwise inserts the payload and returns the
new id. -/
def add_contribution (s : Store) (payload : Contribution) : Except ApiError String × Store :=
  if payload.amount ≤ 0 then
    (Except.error (ApiError.http 400 "Amount must be positive"), s)
  else
    let r := create_document_contribution s payload
    (Except.ok r.1, r.2)

/-- The full `POST /api/campaigns` endpoint: Pydantic validation of the raw
body, then the handler. -/
def post_campaign (s : Store) (r : RawCampaign) : Except ApiError String × Store :=
  match validate_campaign r with
  | Except.error d => (Except.error (ApiError.validation d), s)
  | Except.ok p => create_campaign s p

/-- The full `POST /api/contributions` endpoint: Pydantic validation of the
raw body, then the handler. -/
def post_contribution (s : Store) (r : RawContribution) : Except ApiError String × Store :=
  match validate_contribution r with
  | Except.error d => (Except.error (ApiError.validation d), s)
  | Except.ok p => add_contribution s p

/-! ## List endpoints (src/main.py) -/

/-- `CampaignOut` response model of src/main.py. -/
structure CampaignOut where
  id : String
  title : String
  description : String
  goal_amount : ℚ
  max_supporters : Option ℤ
  deadline : Option ℤ
  created_at : ℤ
deriving DecidableEq, Repr

/-- `ContributionOut` response model of src/main.py. -/
structure ContributionOut where
  id : String
  name : String
  email : String
  amount : ℚ
  message : Option String
  is_public : Bool
  created_at : ℤ
deriving DecidableEq, Repr

/-- The comparison `items.sort(key=lambda x: x.get("created_at"),
reverse=True)` sorts by: `a` may come before `b` iff `b.created_at ≤
a.created_at`. -/
def campaignNewestLe (a b : CampaignDoc) : Bool := b.created_at ≤ a.created_at

/-- Newest-first comparison for contribution documents. -/
def contributionNewestLe (a b : ContributionDoc) : Bool := b.created_at ≤ a.created_at

/-- The campaign collection sorted newest `created_at` first (stable, as
Python's `list.sort`). -/
def sortedCampaigns (s : Store) : List CampaignDoc :=
  (get_documents_campaign s).mergeSort campaignNewestLe

/-- The contribution collection sorted newest `created_at` first. -/
def sortedContributions (s : Store) : List ContributionDoc :=
  (get_documents_contribution s).mergeSort contributionNewestLe

/-- Python's `items[:limit]` for an `int` limit: a non-negative limit keeps
the first `limit` items, a negative one drops the last `|limit|` items. -/
def pySlice {α : Type} (l : List α) (limit : ℤ) : List α :=
  if limit < 0 then l.take (l.length - limit.natAbs) else l.take limit.toNat

/-- One iteration of the `for it in items` loop of `list_campaigns`:
`float(it.get("goal_amount"))` raises (`none`) when the document lacks the
field. -/
def campaignOutOf (it : CampaignDoc) : Option CampaignOut :=
  match it.goal_amount with
  | some g =>
      some { id := it.docId, title := it.title, description := it.description
             goal_amount := g, max_supporters := it.max_supporters
             deadline := it.deadline, created_at := it.created_at }
  | none => none

/-- One iteration of the `for it in items` loop of `list_contributions`:
`float(it.get("amount"))` raises (`none`) when the document lacks the field;
`bool(it.get("is_public", True))` defaults to `True`. -/
def contributionOutOf (it : ContributionDoc) : Option ContributionOut :=
  match it.amount with
  | some a =>
      some { id := it.docId, name := it.name, email := it.email
             amount := a, message := it.message
             is_public := it.is_public.getD true, created_at := it.created_at }
  | none => none

/-- The result-building loop of the list handlers: each iteration either
appends one output record or raises. -/
def buildOuts {α β : Type} (conv : α → Option β) : List α → Option (List β)
  | [] => some []
  | it :: rest =>
      match conv it, buildOuts conv rest with
      | some o, some os => some (o :: os)
      | _, _ => none

/-- `GET /api/campaigns` handler (src/main.py, `list_campaigns`): all
campaign documents, sorted newest first, mapped to `CampaignOut`. -/
def list_campaigns (s : Store) : Option (List CampaignOut) :=
  buildOuts campaignOutOf (sortedCampaigns s)

/-- `GET /api/contributions` handler (src/main.py, `list_contributions`,
query parameter `limit` with default `200`): all contribution documents,
sorted newest first, sliced to `items[:limit]`, mapped to
`ContributionOut`. -/
def list_contributions (s : Store) (limit : ℤ) : Option (List ContributionOut) :=
  buildOuts contributionOutOf (pySlice (sortedContributions s) limit)

/-! ## Summary endpoint (src/main.py) -/

/-- The `GET /api/summary` response body. -/
structure Summary where
  goal : ℚ
  raised : ℚ
  backers : ℕ
  percent : ℚ
  remaining_supporters : ℤ
deriving DecidableEq, Repr

/-- `GET /api/summary` handler (src/main.py, `get_summary`): `goal` defaults
to `100000.0` and is the first campaign's `goal_amount` when one exists;
`max_supporters` is the first campaign's value or `100`; `raised` sums
`x.get("amount", 0)` over all contribution documents; `backers` counts them;
`percent = round(total / goal * 100, 2) if goal > 0 else 0`;
`remaining_supporters = max(0, max_supporters - count)`. -/
def get_summary (s : Store) : Summary :=
  let campaigns := get_documents_campaign s
  let gm : ℚ × ℤ :=
    match campaigns with
    | c :: _ => (c.goal_amount.getD 100000, c.max_supporters.getD 100)
    | [] => (100000, 100)
  let contributions := get_documents_contribution s
  let total := (contributions.map (fun x => x.amount.getD 0)).sum
  let count := contributions.length
  let percent := if 0 < gm.1 then round2 (total / gm.1 * 100) else 0
  { goal := gm.1, raised := total, backers := count, percent := percent
    remaining_supporters := max 0 (gm.2 - count) }

/-! ## Diagnostics endpoint (src/main.py, `test_database`) -/

/-- The state of the global `db` handle as `test_database` can observe it:
absent (`db is None`), or present with an optional `.name` attribute and a
`list_collection_names()` call that either returns the names or raises. -/
inductive DbHandle where
  | unavailable
  | withName (nm : String) (colls : Except String (List String))
  | unnamed (colls : Except String (List String))
deriving Repr

/-- The `GET /test` response body. -/
structure TestResponse where
  backend : String
  database : String
  database_url : Option String
  database_name : Option String
  connection_status : String
  collections : List String
deriving DecidableEq, Repr

/-- The `database` status text once connected: success, or the caught
exception's text truncated to 50 characters. -/
def databaseStatus (colls : Except String (List String)) : String :=
  match colls with
  | Except.ok _ => "✅ Connected & Working"
  | Except.error e => "⚠️  Connected but Error: " ++ e.take 50

/-- The `collections` list once connected: `collections[:10]` on success,
unchanged (`[]`) when `list_collection_names()` raised. -/
def collectionsOf (colls : Except String (List String)) : List String :=
  match colls with
  | Except.ok cs => cs.take 10
  | Except.error _ => []

/-- `GET /test` handler (src/main.py, `test_database`): builds a default
response, fills it in when `db` is available, and catches every exception
into the `database` status text - the handler itself never raises. -/
def test_database (db : DbHandle) (databaseUrlSet : Bool) : TestResponse :=
  match db with
  | DbHandle.unavailable =>
      { backend := "✅ Running", database := "⚠️  Available but not initialized"
        database_url := none, database_name := none
        connection_status := "Not Connected", collections := [] }
  | DbHandle.withName nm colls =>
      { backend := "✅ Running", database := databaseStatus colls
        database_url := some (if databaseUrlSet then "✅ Set" else "❌ Not Set")
        database_name := some nm
        connection_status := "Connected", collections := collectionsOf colls }
  | DbHandle.unnamed colls =>
      { backend := "✅ Running", database := databaseStatus colls
        database_url := some (if databaseUrlSet then "✅ Set" else "❌ Not Set")
        database_name := some "✅ Connected"
        connection_status := "Connected", collections := collectionsOf colls }

/-! ## Derived forms and concrete stores used in the statements below -/

/-- The loop body of `list_campaigns` as a total function: meaningful on
documents whose `goal_amount` is present (`campaignOutOf` agrees there). -/
def campaignOutGet (it : CampaignDoc) : CampaignOut :=
  { id := it.docId, title := it.title, description := it.description
    goal_amount := it.goal_amount.getD 0, max_supporters := it.max_supporters
    deadline := it.deadline, created_at := it.created_at }

/-- The loop body of `list_contributions` as a total function: meaningful on
documents whose `amount` is present (`contributionOutOf` agrees there). -/
def contributionOutGet (it : ContributionDoc) : ContributionOut :=
  { id := it.docId, name := it.name, email := it.email
    amount := it.amount.getD 0, message := it.message
    is_public := it.is_public.getD true, created_at := it.created_at }

/-- The store at startup: both collections empty. -/
def initStore : Store := ⟨[], [], 0, 0⟩

/-- A stored contribution document with a given amount and timestamp. -/
def exContribution (a : ℚ) (t : ℤ) : ContributionDoc :=
  ⟨toString t, "Supporter", "supporter@example.com", some a, none, some true, t⟩

/-- A stored campaign document with goal 1000 and max_supporters 10. -/
def exCampaign : CampaignDoc := ⟨"c1", "Gadget", "Build the gadget", some 1000, some 10, none, 0⟩

/-- The spec's summary example: goal 1000, max_supporters 10, fifteen
contributions totaling 250. -/
def exSummaryStore : Store :=
  ⟨[exCampaign],
   [exContribution 10 1, exContribution 10 2, exContribution 10 3, exContribution 10 4,
    exContribution 10 5, exContribution 10 6, exContribution 10 7, exContribution 10 8,
    exContribution 10 9, exContribution 10 10, exContribution 10 11, exContribution 10 12,
    exContribution 10 13, exContribution 10 14, exContribution 110 15], 16, 16⟩

/-- The spec's list example: five stored contributions. -/
def exListStore : Store :=
  ⟨[exCampaign],
   [exContribution 10 1, exContribution 20 2, exContribution 30 3,
    exContribution 40 4, exContribution 50 5], 6, 6⟩

/-- A campaign body whose required text fields are present but empty. -/
def rawTitleEmpty : RawCampaign := ⟨some "", some "", some 50, none, none⟩

/-- A contribution body whose required `name` is present but empty. -/
def rawNameEmpty : RawContribution := ⟨some "", some "a@b.co", some 5, none, none⟩

/-- A well-formed contribution body. -/
def rawGoodContribution : RawContribution :=
  ⟨some "Ada", some "ada@example.com", some 5, none, none⟩

/-- A well-formed campaign body. -/
def rawGoodCampaign : RawCampaign := ⟨some "Gadget", some "Build it", some 1000, some 10, none⟩

/-- A stored contribution document that lacks the `amount` field. -/
def noAmountDoc : ContributionDoc := ⟨"x", "Anon", "anon@example.com", none, none, some true, 9⟩

/-! ## Helper lemmas -/

theorem buildOuts_eq_map {α β : Type} (conv : α → Option β) (g : α → β) :
    ∀ l : List α, (∀ x ∈ l, conv x = some (g x)) → buildOuts conv l = some (l.map g)
  | [], _ => rfl
  | it :: rest, h => by
      have hit := h it (List.mem_cons_self it rest)
      have hrest := buildOuts_eq_map conv g rest (fun x hx => h x (List.mem_cons_of_mem _ hx))
      simp [buildOuts, hit, hrest]

theorem campaignOutOf_of_isSome (d : CampaignDoc) (h : d.goal_amount.isSome) :
    campaignOutOf d = some (campaignOutGet d) := by
  cases hg : d.goal_amount with
  | some g => simp [campaignOutOf, campaignOutGet, hg]
  | none => rw [hg] at h; simp at h

theorem contributionOutOf_of_isSome (d : ContributionDoc) (h : d.amount.isSome) :
    contributionOutOf d = some (contributionOutGet d) := by
  cases ha : d.amount with
  | some a => simp [contributionOutOf, contributionOutGet, ha]
  | none => rw [ha] at h; simp at h

theorem sortedCampaigns_perm (s : Store) : (sortedCampaigns s).Perm s.campaign :=
  List.mergeSort_perm s.campaign campaignNewestLe

theorem sortedContributions_perm (s : Store) : (sortedContributions s).Perm s.contribution :=
  List.mergeSort_perm s.contribution contributionNewestLe

theorem sortedCampaigns_pairwise (s : Store) :
    (sortedCampaigns s).Pairwise (fun a b => b.created_at ≤ a.created_at) := by
  have h := @List.sorted_mergeSort CampaignDoc campaignNewestLe
    (fun a b c hab hbc => by
      simp only [campaignNewestLe, decide_eq_true_eq] at hab hbc ⊢; exact le_trans hbc hab)
    (fun a b => by
      simp only [campaignNewestLe, Bool.or_eq_true, decide_eq_true_eq]; exact le_total _ _)
    (get_documents_campaign s)
  exact h.imp (by intro a b hab; simpa [campaignNewestLe] using hab)

theorem sortedContributions_pairwise (s : Store) :
    (sortedContributions s).Pairwise (fun a b => b.created_at ≤ a.created_at) := by
  have h := @List.sorted_mergeSort ContributionDoc contributionNewestLe
    (fun a b c hab hbc => by
      simp only [contributionNewestLe, decide_eq_true_eq] at hab hbc ⊢; exact le_trans hbc hab)
    (fun a b => by
      simp only [contributionNewestLe, Bool.or_eq_true, decide_eq_true_eq]; exact le_total _ _)
    (get_documents_contribution s)
  exact h.imp (by intro a b hab; simpa [contributionNewestLe] using hab)

/-! ## The claims -/

/-- C1: create-campaign succeeds (returning the new record's id) exactly when
the `campaign` collection is empty and fails with the 400 duplicate-campaign
error otherwise; after the one successful creation the collection is
non-empty, every further handler call fails with the 400 error, and no
further attempt (valid or not) changes the store, so the first record
remains. -/
theorem C1_single_campaign (s : Store) (r : RawCampaign) (p : Campaign)
    (hv : validate_campaign r = Except.ok p) (hg : 0 < p.goal_amount) :
    ((post_campaign s r).1.isOk = true ↔ s.campaign = []) ∧
    (s.campaign = [] →
      ∃ newId s₂, post_campaign s r = (Except.ok newId, s₂) ∧
        s₂.campaign ≠ [] ∧
        (∀ q : Campaign, create_campaign s₂ q =
          (Except.error (ApiError.http 400 "A campaign already exists"), s₂)) ∧
        (∀ r₂ : RawCampaign, (post_campaign s₂ r₂).1.isOk = false ∧
          (post_campaign s₂ r₂).2 = s₂)) := by
  constructor
  · cases hc : s.campaign with
    | nil =>
        simp [post_campaign, hv, create_campaign, get_documents_campaign, hc,
          create_document_campaign, Except.isOk, Except.toBool]
    | cons c cs =>
        simp [post_campaign, hv, create_campaign, get_documents_campaign, hc,
          Except.isOk, Except.toBool]
  · intro hc
    have hpost : post_campaign s r =
        (Except.ok (toString s.nextId), (create_document_campaign s p).2) := by
      simp [post_campaign, hv, create_campaign, get_documents_campaign, hc,
        create_document_campaign]
    refine ⟨toString s.nextId, (create_document_campaign s p).2, hpost, ?_, ?_, ?_⟩
    · simp [create_document_campaign, hc]
    · intro q
      simp [create_campaign, get_documents_campaign, create_document_campaign, hc]
    · intro r₂
      cases hv₂ : validate_campaign r₂ with
      | error d => simp [post_campaign, hv₂, Except.isOk, Except.toBool]
      | ok q =>
          simp [post_campaign, hv₂, create_campaign, get_documents_campaign,
            create_document_campaign, hc, Except.isOk, Except.toBool]

/-- C1 witness: on the empty store, the example campaign body is created
successfully. -/
theorem C1_single_campaign_witness :
    initStore.campaign = [] ∧ (post_campaign initStore rawGoodCampaign).1.isOk = true :=
  ⟨rfl,
    ((C1_single_campaign initStore rawGoodCampaign ⟨"Gadget", "Build it", 1000, some 10, none⟩
      (by norm_num [validate_campaign, rawGoodCampaign]) (by norm_num)).1).mpr rfl⟩

/-- C6: with no campaign document stored, the summary computes with the
default goal `100000` and the default `max_supporters = 100`. -/
theorem C6_summary_defaults (s : Store) (h : s.campaign = []) :
    (get_summary s).goal = 100000 ∧
    (get_summary s).remaining_supporters = max 0 (100 - (s.contribution.length : ℤ)) ∧
    (get_summary s).percent = round2 ((get_summary s).raised / 100000 * 100) := by
  refine ⟨?_, ?_, ?_⟩ <;>
    simp [get_summary, get_documents_campaign, get_documents_contribution, h] <;>
    norm_num

/-- C6 witness: the empty store. -/
theorem C6_summary_defaults_witness :
    initStore.campaign = [] ∧ (get_summary initStore).goal = 100000 :=
  ⟨rfl, (C6_summary_defaults initStore rfl).1⟩

/-- C7: whenever the create-campaign or create-contribution endpoint rejects
a request - by Pydantic validation or by a business-rule `HTTPException` -
the store is exactly the store the request started from: the error is raised
before any write. -/
theorem C7_error_leaves_store (s : Store) (rc : RawCampaign) (rk : RawContribution) :
    ((post_campaign s rc).1.isOk = false → (post_campaign s rc).2 = s) ∧
    ((post_contribution s rk).1.isOk = false → (post_contribution s rk).2 = s) := by
  constructor
  · cases hv : validate_campaign rc with
    | error d => simp [post_campaign, hv]
    | ok p =>
        cases hc : s.campaign with
        | nil =>
            simp [post_campaign, hv, create_campaign, get_documents_campaign, hc,
              create_document_campaign, Except.isOk, Except.toBool]
        | cons c cs =>
            simp [post_campaign, hv, create_campaign, get_documents_campaign, hc]
  · cases hv : validate_contribution rk with
    | error d => simp [post_contribution, hv]
    | ok p =>
        by_cases ha : p.amount ≤ 0
        · simp [post_contribution, hv, add_contribution, ha]
        · simp [post_contribution, hv, add_contribution, ha,
            create_document_contribution, Except.isOk, Except.toBool]

/-- C8: the diagnostics handler is a total function of the observable store
state - it returns a status response for every state (never raises), its
`collections` field holds at most 10 entries, a failing
`list_collection_names()` is captured as truncated status text, and an
unavailable store still gets a full response. -/
theorem C8_diagnostics (db : DbHandle) (urlSet : Bool) :
    (test_database db urlSet).collections.length ≤ 10 ∧
    (test_database db urlSet).backend = "✅ Running" ∧
    (∀ nm e, test_database (DbHandle.withName nm (Except.error e)) urlSet =
      { backend := "✅ Running", database := "⚠️  Connected but Error: " ++ e.take 50
        database_url := some (if urlSet then "✅ Set" else "❌ Not Set")
        database_name := some nm, connection_status := "Connected", collections := [] }) ∧
    (test_database DbHandle.unavailable urlSet =
      { backend := "✅ Running", database := "⚠️  Available but not initialized"
        database_url := none, database_name := none
        connection_status := "Not Connected", collections := [] }) := by
  refine ⟨?_, ?_, ?_, ?_⟩
  · cases db with
    | unavailable => simp [test_database]
    | withName nm colls =>
        cases colls with
        | ok cs => simpa [test_database, collectionsOf] using List.length_take_le 10 cs
        | error e => simp [test_database, collectionsOf]
    | unnamed colls =>
        cases colls with
        | ok cs => simpa [test_database, collectionsOf] using List.length_take_le 10 cs
        | error e => simp [test_database, collectionsOf]
  · cases db <;> simp [test_database]
  · intro nm e; simp [test_database, collectionsOf, databaseStatus]
  · simp [test_database]

/-- C3 counterexample: the claim is false on the code.  A campaign body with
empty `title` and `description` and a contribution body with empty `name`
both pass validation and are accepted by the endpoints (`str = Field(...)`
only makes a field required, it does not exclude the empty string). -/
theorem C3_counterexample :
    (post_campaign initStore rawTitleEmpty).1.isOk = true ∧
    (post_contribution initStore rawNameEmpty).1.isOk = true := by
  have hem : validEmail "a@b.co" = true := by decide
  constructor
  · norm_num [post_campaign, validate_campaign, rawTitleEmpty, create_campaign,
      get_documents_campaign, initStore, create_document_campaign, Except.isOk, Except.toBool]
  · norm_num [post_contribution, validate_contribution, rawNameEmpty, hem,
      add_contribution, create_document_contribution, initStore, Except.isOk, Except.toBool]

/-- C3 (amended): the required text fields `title`, `description` and `name`
are rejected when absent from the body, but the empty string is accepted for
each of them - the schemas require presence, not non-emptiness. -/
theorem C3_required_fields :
    (∀ r : RawCampaign, r.title = none →
      validate_campaign r = Except.error "field required") ∧
    (∀ r : RawCampaign, r.description = none →
      validate_campaign r = Except.error "field required") ∧
    (∀ r : RawContribution, r.name = none →
      validate_contribution r = Except.error "field required") ∧
    validate_campaign rawTitleEmpty = Except.ok ⟨"", "", 50, some 100, none⟩ ∧
    validate_contribution rawNameEmpty = Except.ok ⟨"", "a@b.co", 5, none, true⟩ := by
  have hem : validEmail "a@b.co" = true := by decide
  refine ⟨?_, ?_, ?_, ?_, ?_⟩
  · rintro ⟨t, d, g, m, dl⟩ h
    cases h; cases d <;> cases g <;> simp [validate_campaign]
  · rintro ⟨t, d, g, m, dl⟩ h
    cases h; cases t <;> cases g <;> simp [validate_campaign]
  · rintro ⟨n, e, a, msg, pub⟩ h
    cases h; cases e <;> cases a <;> simp [validate_contribution]
  · norm_num [validate_campaign, rawTitleEmpty]
  · norm_num [validate_contribution, rawNameEmpty, hem]

/-- C4: the schema check (`amount` with `gt=0`) and the handler re-check
(`raise 400` when `amount <= 0`) agree: with the other fields well-formed,
validation succeeds exactly when `0 < amount`; the handler alone succeeds
exactly when `0 < amount` and rejects `amount ≤ 0` with the 400 error leaving
the store untouched; and a non-positive `amount` is rejected by the full
endpoint before any record is persisted. -/
theorem C4_amount_checks (s : Store) (r : RawContribution) (a : ℚ) (n e : String)
    (hn : r.name = some n) (he : r.email = some e) (hev : validEmail e = true)
    (ha : r.amount = some a) :
    ((∃ p, validate_contribution r = Except.ok p ∧ p.amount = a) ↔ 0 < a) ∧
    (∀ p : Contribution, ((add_contribution s p).1.isOk = true ↔ 0 < p.amount)) ∧
    (∀ p : Contribution, p.amount ≤ 0 →
      add_contribution s p = (Except.error (ApiError.http 400 "Amount must be positive"), s)) ∧
    (a ≤ 0 → (post_contribution s r).1.isOk = false ∧ (post_contribution s r).2 = s) := by
  have hval : validate_contribution r =
      if 0 < a then Except.ok ⟨n, e, a, r.message, r.is_public.getD true⟩
      else Except.error "amount: ensure this value is greater than 0" := by
    simp [validate_contribution, hn, he, ha, hev]
  refine ⟨?_, ?_, ?_, ?_⟩
  · constructor
    · rintro ⟨p, hp, hpa⟩
      by_contra hna
      rw [hval, if_neg hna] at hp
      cases hp
    · intro hpos
      exact ⟨_, by rw [hval, if_pos hpos], rfl⟩
  · intro p
    by_cases hp : p.amount ≤ 0
    · simp only [add_contribution, if_pos hp, Except.isOk, Except.toBool]
      constructor
      · intro h; cases h
      · intro h; exact absurd h (not_lt.mpr hp)
    · simp only [add_contribution, if_neg hp, Except.isOk, Except.toBool]
      exact ⟨fun _ => not_le.mp hp, fun _ => trivial⟩
  · intro p hp
    simp [add_contribution, hp]
  · intro hle
    have hna : ¬ 0 < a := not_lt.mpr hle
    simp [post_contribution, hval, hna, Except.isOk, Except.toBool]

/-- C4 witness: the example contribution body with amount 5 validates. -/
theorem C4_amount_checks_witness :
    validEmail "ada@example.com" = true ∧
    (validate_contribution rawGoodContribution).isOk = true := by
  refine ⟨by decide, ?_⟩
  obtain ⟨p, hp, -⟩ := (C4_amount_checks initStore rawGoodContribution 5 "Ada"
    "ada@example.com" rfl rfl (by decide) rfl).1.mpr (by norm_num)
  rw [hp]; rfl

/-- C5: list-campaigns returns all campaign records and list-contributions
with parameter `limit` (FastAPI default 200) returns exactly
`min(limit, stored)` records; both outputs are ordered by `created_at`
non-increasing, and the contributions returned are the `limit` newest ones:
every returned record's `created_at` is at least every omitted record's.
Stated for stores whose documents carry the fields the handlers pass to
`float(...)`. -/
theorem C5_list_endpoints (s : Store) (limit : ℕ)
    (hc : ∀ d ∈ s.campaign, d.goal_amount.isSome)
    (hk : ∀ d ∈ s.contribution, d.amount.isSome) :
    (∃ camps : List CampaignOut,
      list_campaigns s = some camps ∧
      camps.length = s.campaign.length ∧
      camps = (sortedCampaigns s).map campaignOutGet ∧
      (sortedCampaigns s).Perm s.campaign ∧
      camps.Pairwise (fun a b => b.created_at ≤ a.created_at)) ∧
    (∃ outs : List ContributionOut,
      list_contributions s (limit : ℤ) = some outs ∧
      outs.length = min limit s.contribution.length ∧
      outs = ((sortedContributions s).take limit).map contributionOutGet ∧
      outs.Pairwise (fun a b => b.created_at ≤ a.created_at) ∧
      ∀ x ∈ outs, ∀ y ∈ (sortedContributions s).drop limit,
        y.created_at ≤ x.created_at) := by
  have hcperm := sortedCampaigns_perm s
  have hkperm := sortedContributions_perm s
  have hpwc := sortedCampaigns_pairwise s
  have hpwk := sortedContributions_pairwise s
  constructor
  · have hcmem : ∀ d ∈ sortedCampaigns s, campaignOutOf d = some (campaignOutGet d) :=
      fun d hd => campaignOutOf_of_isSome d (hc d (hcperm.mem_iff.mp hd))
    have hcl : list_campaigns s = some ((sortedCampaigns s).map campaignOutGet) :=
      buildOuts_eq_map _ _ _ hcmem
    refine ⟨_, hcl, ?_, rfl, hcperm, ?_⟩
    · rw [List.length_map]; exact hcperm.length_eq
    · rw [List.pairwise_map]; exact hpwc
  · have hslice : pySlice (sortedContributions s) (limit : ℤ) =
        (sortedContributions s).take limit := by
      simp [pySlice]
    have hsortlen : (sortedContributions s).length = s.contribution.length :=
      hkperm.length_eq
    have hmem : ∀ d ∈ (sortedContributions s).take limit,
        contributionOutOf d = some (contributionOutGet d) :=
      fun d hd =>
        contributionOutOf_of_isSome d (hk d (hkperm.mem_iff.mp (List.take_subset _ _ hd)))
    have hout : list_contributions s (limit : ℤ) =
        some (((sortedContributions s).take limit).map contributionOutGet) := by
      unfold list_contributions
      rw [hslice]
      exact buildOuts_eq_map _ _ _ hmem
    refine ⟨_, hout, ?_, rfl, ?_, ?_⟩
    · rw [List.length_map, List.length_take, hsortlen]
    · rw [List.pairwise_map]
      exact hpwk.sublist (List.take_sublist _ _)
    · intro x hx y hy
      obtain ⟨d, hd, rfl⟩ := List.mem_map.mp hx
      have hsplit : List.Pairwise
          (fun a b : ContributionDoc => b.created_at ≤ a.created_at)
          ((sortedContributions s).take limit ++ (sortedContributions s).drop limit) := by
        rw [List.take_append_drop]; exact hpwk
      exact (List.pairwise_append.mp hsplit).2.2 d hd y hy

/-- C5 witness: five stored contributions and `limit = 3` return exactly
three records. -/
theorem C5_list_endpoints_witness :
    ∃ outs, list_contributions exListStore ((3 : ℕ) : ℤ) = some outs ∧
      outs.length = min 3 exListStore.contribution.length := by
  obtain ⟨outs, ho, hl, -, -, -⟩ :=
    (C5_list_endpoints exListStore 3 (by decide) (by decide)).2
  exact ⟨outs, ho, hl⟩

/-- C9: `limit = 0` returns the empty list, and a negative limit does not
fail: by Python's slice `items[:limit]` it returns, after the newest-first
sort, all records except the `|limit|` oldest ones. -/
theorem C9_negative_limit (s : Store) (hk : ∀ d ∈ s.contribution, d.amount.isSome) :
    list_contributions s 0 = some [] ∧
    ∀ k : ℤ, k < 0 →
      ∃ outs, list_contributions s k = some outs ∧
        outs.length = s.contribution.length - k.natAbs ∧
        outs = ((sortedContributions s).take (s.contribution.length - k.natAbs)).map
          contributionOutGet ∧
        ∀ x ∈ outs,
          ∀ y ∈ (sortedContributions s).drop (s.contribution.length - k.natAbs),
            y.created_at ≤ x.created_at := by
  constructor
  · simp [list_contributions, pySlice, buildOuts]
  · intro k hkneg
    have hkperm := sortedContributions_perm s
    have hpwk := sortedContributions_pairwise s
    have hsortlen : (sortedContributions s).length = s.contribution.length :=
      hkperm.length_eq
    have hslice : pySlice (sortedContributions s) k =
        (sortedContributions s).take (s.contribution.length - k.natAbs) := by
      simp [pySlice, if_pos hkneg, hsortlen]
    have hmem : ∀ d ∈ (sortedContributions s).take (s.contribution.length - k.natAbs),
        contributionOutOf d = some (contributionOutGet d) :=
      fun d hd =>
        contributionOutOf_of_isSome d (hk d (hkperm.mem_iff.mp (List.take_subset _ _ hd)))
    have hout : list_contributions s k =
        some (((sortedContributions s).take (s.contribution.length - k.natAbs)).map
          contributionOutGet) := by
      unfold list_contributions
      rw [hslice]
      exact buildOuts_eq_map _ _ _ hmem
    refine ⟨_, hout, ?_, rfl, ?_⟩
    · rw [List.length_map, List.length_take, hsortlen]
      exact Nat.min_eq_left (Nat.sub_le _ _)
    · intro x hx y hy
      obtain ⟨d, hd, rfl⟩ := List.mem_map.mp hx
      have hsplit : List.Pairwise
          (fun a b : ContributionDoc => b.created_at ≤ a.created_at)
          ((sortedContributions s).take (s.contribution.length - k.natAbs) ++
            (sortedContributions s).drop (s.contribution.length - k.natAbs)) := by
        rw [List.take_append_drop]; exact hpwk
      exact (List.pairwise_append.mp hsplit).2.2 d hd y hy

/-- C9 witness: five stored contributions and `limit = -2` return three
records (all but the two oldest) without failing. -/
theorem C9_negative_limit_witness :
    ∃ outs, list_contributions exListStore (-2) = some outs ∧
      outs.length = exListStore.contribution.length - Int.natAbs (-2) := by
  obtain ⟨outs, ho, hl, -, -⟩ :=
    (C9_negative_limit exListStore (by decide)).2 (-2) (by decide)
  exact ⟨outs, ho, hl⟩

/-- C2: the summary's `raised` is the sum of all stored contribution amounts,
`backers` the number of stored contribution documents, `goal` the first
campaign's `goal_amount`, `percent = round(raised / goal * 100, 2)` (the
first campaign's goal being positive), and
`remaining_supporters = max(0, max_supporters - backers)`, never negative. -/
theorem C2_summary (s : Store) (c : CampaignDoc) (rest : List CampaignDoc) (g : ℚ)
    (hs : s.campaign = c :: rest) (hg : c.goal_amount = some g) (hgpos : 0 < g) :
    (get_summary s).raised = (s.contribution.map (fun x => x.amount.getD 0)).sum ∧
    (get_summary s).backers = s.contribution.length ∧
    (get_summary s).goal = g ∧
    (get_summary s).percent = round2 ((get_summary s).raised / g * 100) ∧
    0 ≤ (get_summary s).remaining_supporters ∧
    (get_summary s).remaining_supporters =
      max 0 (c.max_supporters.getD 100 - (s.contribution.length : ℤ)) := by
  refine ⟨?_, ?_, ?_, ?_, ?_, ?_⟩
  · simp [get_summary, get_documents_campaign, get_documents_contribution, hs]
  · simp [get_summary, get_documents_campaign, get_documents_contribution, hs]
  · simp [get_summary, get_documents_campaign, hs, hg]
  · simp [get_summary, get_documents_campaign, get_documents_contribution, hs, hg, hgpos]
  · simp only [get_summary, get_documents_campaign, hs]
    exact le_max_left 0 _
  · simp [get_summary, get_documents_campaign, get_documents_contribution, hs]

/-- C2 witness: the spec's example - campaign goal 1000 and max_supporters
10, fifteen contributions totaling 250: `raised = 250`, `percent = 25`,
`remaining_supporters = 0`. -/
theorem C2_summary_witness :
    exSummaryStore.campaign = exCampaign :: [] ∧
    exCampaign.goal_amount = some 1000 ∧
    (get_summary exSummaryStore).goal = 1000 ∧
    (get_summary exSummaryStore).raised = 250 ∧
    (get_summary exSummaryStore).percent = 25 ∧
    (get_summary exSummaryStore).backers = 15 ∧
    (get_summary exSummaryStore).remaining_supporters = 0 := by
  have h := C2_summary exSummaryStore exCampaign [] 1000 rfl rfl (by norm_num)
  have hraised : (get_summary exSummaryStore).raised = 250 := by
    rw [h.1]; norm_num [exSummaryStore, exContribution]
  refine ⟨rfl, rfl, h.2.2.1, hraised, ?_, ?_, ?_⟩
  · rw [h.2.2.2.1, hraised]
    norm_num [round2, roundHalfEven]
  · rw [h.2.1]; rfl
  · rw [h.2.2.2.2.2]
    norm_num [exCampaign, exSummaryStore]

/-- C10: a stored contribution document that lacks `amount` still counts
toward the summary: `raised` is unchanged (it contributes 0) while `backers`
grows by one, and `remaining_supporters` does not grow - it strictly falls
whenever it was positive. -/
theorem C10_missing_amount (s : Store) (d : ContributionDoc) (hd : d.amount = none) :
    (get_summary { s with contribution := s.contribution ++ [d] }).raised
      = (get_summary s).raised ∧
    (get_summary { s with contribution := s.contribution ++ [d] }).backers
      = (get_summary s).backers + 1 ∧
    (get_summary { s with contribution := s.contribution ++ [d] }).remaining_supporters
      ≤ (get_summary s).remaining_supporters ∧
    (0 < (get_summary s).remaining_supporters →
      (get_summary { s with contribution := s.contribution ++ [d] }).remaining_supporters
        < (get_summary s).remaining_supporters) := by
  cases hc : s.campaign with
  | nil =>
      refine ⟨?_, ?_, ?_, ?_⟩ <;>
        simp [get_summary, get_documents_campaign, get_documents_contribution, hc, hd] <;>
        omega
  | cons c cs =>
      refine ⟨?_, ?_, ?_, ?_⟩ <;>
        simp [get_summary, get_documents_campaign, get_documents_contribution, hc, hd] <;>
        omega

/-- C10 witness: appending a document without `amount` to the five-record
store leaves `raised` at 150 and raises `backers` from 5 to 6. -/
theorem C10_missing_amount_witness :
    noAmountDoc.amount = none ∧
    (get_summary { exListStore with
        contribution := exListStore.contribution ++ [noAmountDoc] }).raised
      = (get_summary exListStore).raised ∧
    (get_summary { exListStore with
        contribution := exListStore.contribution ++ [noAmountDoc] }).backers
      = (get_summary exListStore).backers + 1 := by
  have h := C10_missing_amount exListStore noAmountDoc rfl
  exact ⟨rfl, h.1, h.2.1⟩

end Crowdfund
